import Mathlib

/-!
Verification of the ESTR4999 stock-forecasting pipeline.

This file gives a shallow embedding of the pure computational content of
`core/ltsf_runner.py` and `train.py` and proves the specified properties of:

* `LTSFRunner.evaluate_trading_strategy` (the long/short backtest),
* `load_config` / `train_func` configuration fusion and hashing order,
* `LTSFRunner.configure_optimizers` (optimizer/scheduler selection, the WSD
  learning-rate lambda, and the error policy),
* `LTSFRunner.load_model` (dynamic model resolution),
* `generate_config_files` (batch per-ticker config generation), and
* the `test_step` / `on_test_epoch_end` accumulator discipline.

Numeric values computed with Python floats are modelled exactly over `ℚ`;
Python dicts are modelled as partial maps `String → Option α`; the filesystem
touched by the config generator is modelled as a partial map from path to
content; exceptions are modelled with `Except`.
-/

/-! ## Trading-strategy evaluation (`LTSFRunner.evaluate_trading_strategy`) -/

/-- Result record of `evaluate_trading_strategy` (its returned dictionary). -/
structure TradingEval where
  average_daily_return : ℚ
  cumulative_return : ℚ
  loss_days : ℕ
  total_profits : ℚ
deriving DecidableEq

/-- The per-day profit rule of the loop body (source lines 63-69): long when the
prediction exceeds today's price, short when below, flat when equal. -/
def strategyProfit (predicted_price true_price_tomorrow true_price_today : ℚ) : ℚ :=
  if predicted_price > true_price_today then
    true_price_tomorrow - true_price_today
  else if predicted_price < true_price_today then
    true_price_today - true_price_tomorrow
  else
    0

/-- Profit of day `i`, reading the three parallel lists at index `i` as the
Python loop does (indexing is in bounds under the length hypotheses of the
theorems below; `getD _ 0` is the total stand-in for list indexing). -/
def dayProfit (preds toms todays : List ℚ) (i : ℕ) : ℚ :=
  strategyProfit (preds.getD i 0) (toms.getD i 0) (todays.getD i 0)

/-- Daily return of day `i`: `profit / true_price_today` (source line 72). -/
def dayReturn (preds toms todays : List ℚ) (i : ℕ) : ℚ :=
  dayProfit preds toms todays i / todays.getD i 0

/-- The loop state of `evaluate_trading_strategy`: the `daily_returns` list and
the three running accumulators. -/
structure TradeState where
  daily_returns : List ℚ
  cumulative_return : ℚ
  total_profits : ℚ
  loss_days : ℕ

/-- One iteration of the loop body of `evaluate_trading_strategy`
(source lines 57-80). -/
def tradeStep (preds toms todays : List ℚ) (s : TradeState) (i : ℕ) : TradeState :=
  { daily_returns := s.daily_returns ++ [dayReturn preds toms todays i]
    cumulative_return := s.cumulative_return * (1 + dayReturn preds toms todays i)
    total_profits := s.total_profits + dayProfit preds toms todays i
    loss_days := s.loss_days + (if dayReturn preds toms todays i < 0 then 1 else 0) }

/-- `LTSFRunner.evaluate_trading_strategy` (source lines 39-93): iterate the
loop body over `range(len(predictions_tomorrow))` starting from
`daily_returns = []`, `cumulative_return = 1.0`, `total_profits = 0`,
`loss_days = 0`, then report `np.mean(daily_returns)`,
`cumulative_return - 1`, `loss_days` and `total_profits`. -/
def evaluate_trading_strategy (preds toms todays : List ℚ) : TradingEval :=
  let final := (List.range preds.length).foldl (tradeStep preds toms todays) ⟨[], 1, 0, 0⟩
  { average_daily_return := final.daily_returns.sum / (final.daily_returns.length : ℚ)
    cumulative_return := final.cumulative_return - 1
    loss_days := final.loss_days
    total_profits := final.total_profits }

/-- Closed form of the trading loop: folding `tradeStep` over any index list
appends the day returns, multiplies up the compounding factors, sums the
profits and counts the negative-return days. -/
theorem tradeStep_foldl (preds toms todays : List ℚ) (l : List ℕ) (s : TradeState) :
    ((l.foldl (tradeStep preds toms todays) s).daily_returns
      = s.daily_returns ++ l.map (dayReturn preds toms todays))
    ∧ ((l.foldl (tradeStep preds toms todays) s).cumulative_return
      = s.cumulative_return * (l.map (fun i => 1 + dayReturn preds toms todays i)).prod)
    ∧ ((l.foldl (tradeStep preds toms todays) s).total_profits
      = s.total_profits + (l.map (dayProfit preds toms todays)).sum)
    ∧ ((l.foldl (tradeStep preds toms todays) s).loss_days
      = s.loss_days + l.countP fun i => decide (dayReturn preds toms todays i < 0)) := by
  induction l generalizing s with
  | nil => simp
  | cons a t ih =>
    obtain ⟨ih1, ih2, ih3, ih4⟩ := ih (tradeStep preds toms todays s a)
    refine ⟨?_, ?_, ?_, ?_⟩
    · rw [List.foldl_cons, ih1]
      simp [tradeStep]
    · rw [List.foldl_cons, ih2]
      simp [tradeStep, mul_assoc]
    · rw [List.foldl_cons, ih3]
      simp [tradeStep]
      ring
    · rw [List.foldl_cons, ih4]
      simp only [tradeStep, List.countP_cons]
      by_cases hr : dayReturn preds toms todays a < 0 <;> simp [hr] <;> omega

/-- Claim C1: for equal-length non-empty parallel lists of predicted
tomorrow-prices, true tomorrow-prices and true today-prices (each today-price
nonzero), `evaluate_trading_strategy` yields, per day `i`, the long/short/flat
profit rule and `daily_return_i = profit_i / today_i`, and reports the mean of
the daily returns, the compounded net cumulative return
`(prod_i (1 + daily_return_i)) - 1`, the count of days with negative daily
return, and the summed profits. -/
theorem evaluate_trading_strategy_spec (preds toms todays : List ℚ)
    (hlen1 : toms.length = preds.length) (hlen2 : todays.length = preds.length)
    (hne : preds ≠ []) (hnz : ∀ t ∈ todays, t ≠ 0) :
    (∀ i, i < preds.length →
      (dayProfit preds toms todays i =
        if preds.getD i 0 > todays.getD i 0 then toms.getD i 0 - todays.getD i 0
        else if preds.getD i 0 < todays.getD i 0 then todays.getD i 0 - toms.getD i 0
        else 0)
      ∧ dayReturn preds toms todays i = dayProfit preds toms todays i / todays.getD i 0)
    ∧ (evaluate_trading_strategy preds toms todays).average_daily_return
        = ((List.range preds.length).map (dayReturn preds toms todays)).sum
            / (preds.length : ℚ)
    ∧ (evaluate_trading_strategy preds toms todays).cumulative_return
        = ((List.range preds.length).map (fun i => 1 + dayReturn preds toms todays i)).prod - 1
    ∧ (evaluate_trading_strategy preds toms todays).loss_days
        = (List.range preds.length).countP (fun i => decide (dayReturn preds toms todays i < 0))
    ∧ (evaluate_trading_strategy preds toms todays).total_profits
        = ((List.range preds.length).map (dayProfit preds toms todays)).sum := by
  obtain ⟨h1, h2, h3, h4⟩ :=
    tradeStep_foldl preds toms todays (List.range preds.length) ⟨[], 1, 0, 0⟩
  refine ⟨fun i _ => ⟨rfl, rfl⟩, ?_, ?_, ?_, ?_⟩
  · simp only [evaluate_trading_strategy]
    rw [h1]
    simp
  · simp only [evaluate_trading_strategy]
    rw [h2]
    simp
  · simp only [evaluate_trading_strategy]
    rw [h4]
    simp
  · simp only [evaluate_trading_strategy]
    rw [h3]
    simp

/-- Concrete instance of Claim C1: two days, one long and one short trade. -/
theorem evaluate_trading_strategy_spec_witness :
    (([110, 90] : List ℚ) ≠ [] ∧ ∀ t ∈ ([100, 100] : List ℚ), t ≠ 0)
    ∧ (evaluate_trading_strategy [110, 90] [105, 105] [100, 100]).total_profits
        = ((List.range 2).map (dayProfit [110, 90] [105, 105] [100, 100])).sum :=
  ⟨⟨by decide, by decide⟩,
    (evaluate_trading_strategy_spec [110, 90] [105, 105] [100, 100]
      rfl rfl (by decide) (by decide)).2.2.2.2⟩

/-! ## Configuration fusion (`train.py`: `load_config`, `train_func`) -/

/-- A Python dict with string keys, modelled as a partial map. -/
def Dict (α : Type) : Type := String → Option α

/-- Right-biased dict merge: `dictUpdate base upd` is `{**base, **upd}`
(equivalently `base.update(upd)`): keys of `upd` win. -/
def dictUpdate {α : Type} (base upd : Dict α) : Dict α :=
  fun k =>
    match upd k with
    | some v => some v
    | none => base k

/-- Setting a single key of a dict (`conf[key] = v`). -/
def dictSet {α : Type} (d : Dict α) (key : String) (v : α) : Dict α :=
  fun k => if k = key then some v else d k

/-- The fusion step of `load_config` (source `train.py` lines 58-62):
`fused_conf = {**task_conf, **data_conf}` then `fused_conf.update(exp_conf)`.
The surrounding dynamic module loading that produces the three records is at
the system boundary; the three records are taken as arguments. -/
def load_config {α : Type} (task_conf data_conf exp_conf : Dict α) : Dict α :=
  dictUpdate (dictUpdate task_conf data_conf) exp_conf

/-- The override loop at the head of `train_func` (source `train.py`
lines 66-68): `if hyper_conf is not None: for k, v in hyper_conf.items():
conf[k] = v`. -/
def apply_hyper_conf {α : Type} (hyper_conf : Option (Dict α)) (conf : Dict α) : Dict α :=
  match hyper_conf with
  | some h => dictUpdate conf h
  | none => conf

/-- The dict that `train_func` passes to `cal_conf_hash` (source line 69):
the configuration right after the hyper-conf override, before `conf_hash`
and `exp_dir` are assigned. -/
def train_func_hash_input {α : Type} (hyper_conf : Option (Dict α)) (conf : Dict α) : Dict α :=
  apply_hyper_conf hyper_conf conf

/-- The configuration record as `train_func` leaves it (source lines 66-77):
apply the hyper-conf override, assign `conf["conf_hash"]` from the hash of the
current record, then assign `conf["exp_dir"]`. The hash function and the
`exp_dir` path value are parameters (they come from `core.util` and `os.path`,
outside this module). -/
def train_func_conf {α : Type} (hash_fn : Dict α → α) (exp_dir_val : α)
    (hyper_conf : Option (Dict α)) (conf : Dict α) : Dict α :=
  let c1 := apply_hyper_conf hyper_conf conf
  let c2 := dictSet c1 "conf_hash" (hash_fn c1)
  dictSet c2 "exp_dir" exp_dir_val

/-- Claim C2: the fused configuration maps each key to the experiment value if
present, else the dataset-default value if present, else the task-default
value (experiment > dataset > task); and `train_func` applies its override
record on top of the fused record, the override winning per key. -/
theorem load_config_priority {α : Type} (task_conf data_conf exp_conf : Dict α) (k : String) :
    (∀ v, exp_conf k = some v → load_config task_conf data_conf exp_conf k = some v)
    ∧ (exp_conf k = none → ∀ v, data_conf k = some v →
        load_config task_conf data_conf exp_conf k = some v)
    ∧ (exp_conf k = none → data_conf k = none →
        load_config task_conf data_conf exp_conf k = task_conf k)
    ∧ (∀ h base : Dict α,
        (∀ v, h k = some v → apply_hyper_conf (some h) base k = some v)
        ∧ (h k = none → apply_hyper_conf (some h) base k = base k)
        ∧ apply_hyper_conf none base k = base k) := by
  refine ⟨?_, ?_, ?_, fun h base => ⟨?_, ?_, rfl⟩⟩
  · intro v hv
    simp [load_config, dictUpdate, hv]
  · intro he v hv
    simp [load_config, dictUpdate, he, hv]
  · intro he hd
    simp [load_config, dictUpdate, he, hd]
  · intro v hv
    simp [apply_hyper_conf, dictUpdate, hv]
  · intro hn
    simp [apply_hyper_conf, dictUpdate, hn]

/-- Concrete instance of Claim C2: a key set in all three layers resolves to
the experiment value, and the `train_func` override wins over it. -/
theorem load_config_priority_witness :
    load_config (fun k => if k = "lr" then some 1 else none)
        (fun k => if k = "lr" then some 2 else none)
        (fun k => if k = "lr" then some 3 else none) "lr" = some 3
    ∧ apply_hyper_conf (some (fun k => if k = "lr" then some 4 else none))
        (fun k => if k = "lr" then some 3 else none) "lr" = some 4 :=
  ⟨(load_config_priority (fun k => if k = "lr" then some 1 else none)
      (fun k => if k = "lr" then some 2 else none)
      (fun k => if k = "lr" then some 3 else none) "lr").1 3 (by simp),
   ((load_config_priority (fun k => if k = "lr" then some 1 else none)
      (fun k => if k = "lr" then some 2 else none)
      (fun k => if k = "lr" then some 3 else none) "lr").2.2.2
      (fun k => if k = "lr" then some 4 else none)
      (fun k => if k = "lr" then some 3 else none)).1 4 (by simp)⟩

/-- Counterexample to Claim C9 as stated: if the incoming configuration
already holds an `exp_dir` key, that key is part of the dict passed to
`cal_conf_hash`, so the hash input is not `exp_dir`-free for every input. -/
theorem train_func_hash_input_cex :
    train_func_hash_input none
      ((fun k => if k = "exp_dir" then some 0 else none) : Dict ℕ) "exp_dir" ≠ none := by
  simp [train_func_hash_input, apply_hyper_conf, Dict]

/-- Claim C9 (amended): `conf_hash` is computed from the configuration after
the override record has been applied and before the `exp_dir` key is
attached; hence whenever neither the base configuration nor the override
record carries an `exp_dir` key, the hash input holds no `exp_dir` key. -/
theorem train_func_hash_order {α : Type} (hash_fn : Dict α → α) (exp_dir_val : α)
    (hyper_conf : Option (Dict α)) (conf : Dict α) :
    train_func_conf hash_fn exp_dir_val hyper_conf conf "conf_hash"
        = some (hash_fn (train_func_hash_input hyper_conf conf))
    ∧ train_func_conf hash_fn exp_dir_val hyper_conf conf "exp_dir" = some exp_dir_val
    ∧ ((∀ h, hyper_conf = some h → h "exp_dir" = none) → conf "exp_dir" = none →
        train_func_hash_input hyper_conf conf "exp_dir" = none) := by
  refine ⟨?_, ?_, ?_⟩
  · simp [train_func_conf, train_func_hash_input, dictSet]
  · simp [train_func_conf, dictSet]
  · intro hh hc
    cases hyper_conf with
    | none => simpa [train_func_hash_input, apply_hyper_conf] using hc
    | some h =>
      simp [train_func_hash_input, apply_hyper_conf, dictUpdate, hh h rfl, hc]

/-- Concrete instance of Claim C9 (amended): with an `exp_dir`-free base
configuration and no override, the hash input holds no `exp_dir` key and the
final record holds the hash of the pre-`exp_dir` record. -/
theorem train_func_hash_order_witness :
    train_func_conf (fun _ => 7) 9 none ((fun _ => none) : Dict ℕ) "conf_hash"
        = some (7 : ℕ)
    ∧ train_func_hash_input none ((fun _ => none) : Dict ℕ) "exp_dir" = none :=
  ⟨(train_func_hash_order (fun _ => 7) 9 none ((fun _ => none) : Dict ℕ)).1,
   (train_func_hash_order (fun _ => 7) 9 none ((fun _ => none) : Dict ℕ)).2.2
     (fun h hh => by cases hh) rfl⟩

/-! ## Optimizer and scheduler construction (`LTSFRunner.configure_optimizers`) -/

/-- The hyperparameter fields read by `configure_optimizers`
(`self.hparams.*`, source lines 176-225). -/
structure Hparams where
  optimizer : String
  lr : ℚ
  optimizer_weight_decay : ℚ
  lr_max_iter : ℕ
  lr_scheduler : String
  lr_step_size : ℕ
  lr_gamma : ℚ
  milestones : List ℕ
  gamma : ℚ
  lrs_factor : ℚ
  lrs_patience : ℕ
  val_metric : String
  lr_warmup_end_epochs : ℕ
  lr_stable_end_epochs : ℕ
  max_epochs : ℕ

/-- A constructed optimizer with the arguments the source passes to it. -/
inductive OptimizerSpec where
  | Adam (lr weight_decay : ℚ)
  | AdamW (lr : ℚ) (betas : ℚ × ℚ) (weight_decay : ℚ)
  | LBFGS (lr : ℚ) (max_iter : ℕ)
deriving DecidableEq

/-- A constructed learning-rate scheduler with the arguments the source passes
to it (`LambdaLR` carries the epoch-to-multiplier function; the multiplier is
`none` where the Python lambda falls through and returns `None`). -/
inductive SchedulerSpec where
  | StepLR (step_size : ℕ) (gamma : ℚ)
  | MultiStepLR (milestones : List ℕ) (gamma : ℚ)
  | ReduceLROnPlateau (factor : ℚ) (patience : ℕ) (monitor : String)
  | LambdaLR (lr_lambda : ℕ → Option ℚ)

/-- The optimizer if-chain of `configure_optimizers` (source lines 177-186).
`0.9`, `0.95` and `1e-5` are the exact rationals `9/10`, `19/20`, `1/100000`. -/
def select_optimizer (hp : Hparams) : Except String OptimizerSpec :=
  if hp.optimizer = "Adam" then
    .ok (.Adam hp.lr hp.optimizer_weight_decay)
  else if hp.optimizer = "AdamW" then
    .ok (.AdamW hp.lr (9 / 10, 19 / 20) (1 / 100000))
  else if hp.optimizer = "LBFGS" then
    .ok (.LBFGS hp.lr hp.lr_max_iter)
  else
    .error "Invalid optimizer type!"

/-- `wsd_lr_lambda` (source lines 207-214): three guarded returns over the
0-indexed `epoch`; falling past the last guard returns Python `None`,
modelled as `none`. Python float division is exact division in `ℚ`. -/
def wsd_lr_lambda (lr_warmup_end_epochs lr_stable_end_epochs max_epochs : ℕ)
    (epoch : ℕ) : Option ℚ :=
  if epoch < lr_warmup_end_epochs then
    some (((epoch : ℚ) + 1) / (lr_warmup_end_epochs : ℚ))
  else if lr_warmup_end_epochs ≤ epoch ∧ epoch < lr_stable_end_epochs then
    some 1
  else if lr_stable_end_epochs ≤ epoch ∧ epoch ≤ max_epochs then
    some (((epoch : ℚ) + 1 - (lr_stable_end_epochs : ℚ))
      / ((max_epochs : ℚ) - (lr_stable_end_epochs : ℚ)))
  else
    none

/-- The scheduler if-chain of `configure_optimizers` (source lines 188-220),
including the `assert lr_warmup_end_epochs < lr_stable_end_epochs < max_epochs`
guard of the WSD branch (a failed Python `assert` raises `AssertionError`). -/
def select_lr_scheduler (hp : Hparams) : Except String SchedulerSpec :=
  if hp.lr_scheduler = "StepLR" then
    .ok (.StepLR hp.lr_step_size hp.lr_gamma)
  else if hp.lr_scheduler = "MultiStepLR" then
    .ok (.MultiStepLR hp.milestones hp.gamma)
  else if hp.lr_scheduler = "ReduceLROnPlateau" then
    .ok (.ReduceLROnPlateau hp.lrs_factor hp.lrs_patience hp.val_metric)
  else if hp.lr_scheduler = "WSD" then
    if hp.lr_warmup_end_epochs < hp.lr_stable_end_epochs
        ∧ hp.lr_stable_end_epochs < hp.max_epochs then
      .ok (.LambdaLR (wsd_lr_lambda hp.lr_warmup_end_epochs hp.lr_stable_end_epochs
        hp.max_epochs))
    else
      .error "AssertionError"
  else
    .error "Invalid lr_scheduler type!"

/-- `LTSFRunner.configure_optimizers` (source lines 176-225): the optimizer
if-chain runs first, then the scheduler if-chain; the first raised error
aborts the call. -/
def configure_optimizers (hp : Hparams) : Except String (OptimizerSpec × SchedulerSpec) :=
  match select_optimizer hp with
  | .error e => .error e
  | .ok o =>
    match select_lr_scheduler hp with
    | .error e => .error e
    | .ok s => .ok (o, s)

/-- An `Hparams` record used to instantiate the optimizer theorems. -/
def sampleAdamWConf : Hparams :=
  { optimizer := "AdamW"
    lr := 1 / 100
    optimizer_weight_decay := 7
    lr_max_iter := 20
    lr_scheduler := "StepLR"
    lr_step_size := 10
    lr_gamma := 1 / 2
    milestones := []
    gamma := 1 / 2
    lrs_factor := 1 / 2
    lrs_patience := 5
    val_metric := "val/loss"
    lr_warmup_end_epochs := 1
    lr_stable_end_epochs := 2
    max_epochs := 3 }

/-- Claim C3: with `optimizer = "AdamW"` the optimizer is built with learning
rate `lr`, fixed betas `(0.9, 0.95)` and fixed weight decay `1e-5`;
`optimizer_weight_decay` is not read in that branch (the whole
`configure_optimizers` result is invariant under changing it), whereas the
`"Adam"` branch passes `optimizer_weight_decay` through. -/
theorem configure_optimizers_AdamW (hp : Hparams) (w : ℚ) :
    (hp.optimizer = "AdamW" →
      select_optimizer hp = .ok (.AdamW hp.lr (9 / 10, 19 / 20) (1 / 100000))
      ∧ configure_optimizers { hp with optimizer_weight_decay := w }
          = configure_optimizers hp)
    ∧ (hp.optimizer = "Adam" →
      select_optimizer hp = .ok (.Adam hp.lr hp.optimizer_weight_decay)) := by
  constructor
  · intro h
    have hne : hp.optimizer ≠ "Adam" := by rw [h]; decide
    constructor
    · simp [select_optimizer, h, hne]
    · simp [configure_optimizers, select_optimizer, select_lr_scheduler, h, hne]
  · intro h
    simp [select_optimizer, h]

/-- Concrete instance of Claim C3: an `"AdamW"` configuration yields the fixed
betas and weight decay, and changing `optimizer_weight_decay` changes
nothing. -/
theorem configure_optimizers_AdamW_witness :
    sampleAdamWConf.optimizer = "AdamW"
    ∧ select_optimizer sampleAdamWConf
        = .ok (.AdamW (1 / 100) (9 / 10, 19 / 20) (1 / 100000))
    ∧ configure_optimizers { sampleAdamWConf with optimizer_weight_decay := 42 }
        = configure_optimizers sampleAdamWConf :=
  ⟨rfl, ((configure_optimizers_AdamW sampleAdamWConf 42).1 rfl).1,
    ((configure_optimizers_AdamW sampleAdamWConf 42).1 rfl).2⟩

/-- An `Hparams` record with an unsupported optimizer and scheduler name. -/
def sampleBadConf : Hparams :=
  { sampleAdamWConf with optimizer := "SGD", lr_scheduler := "CosineAnnealingLR" }

/-- An `Hparams` record requesting WSD with a violated epoch-order invariant. -/
def sampleBadWsdConf : Hparams :=
  { sampleAdamWConf with
    optimizer := "Adam"
    lr_scheduler := "WSD"
    lr_warmup_end_epochs := 5
    lr_stable_end_epochs := 5
    max_epochs := 3 }

/-- Claim C4: any optimizer name outside `{Adam, AdamW, LBFGS}` makes
`configure_optimizers` raise the invalid-optimizer error; any scheduler name
outside `{StepLR, MultiStepLR, ReduceLROnPlateau, WSD}` makes it raise an
error; and requesting `"WSD"` with the invariant
`lr_warmup_end_epochs < lr_stable_end_epochs < max_epochs` violated makes it
raise an error — all inside `configure_optimizers`, before any training step. -/
theorem configure_optimizers_error_policy (hp : Hparams) :
    (hp.optimizer ≠ "Adam" → hp.optimizer ≠ "AdamW" → hp.optimizer ≠ "LBFGS" →
      configure_optimizers hp = .error "Invalid optimizer type!")
    ∧ (hp.lr_scheduler ≠ "StepLR" → hp.lr_scheduler ≠ "MultiStepLR" →
        hp.lr_scheduler ≠ "ReduceLROnPlateau" → hp.lr_scheduler ≠ "WSD" →
        ∃ msg, configure_optimizers hp = .error msg)
    ∧ (hp.lr_scheduler = "WSD" →
        ¬(hp.lr_warmup_end_epochs < hp.lr_stable_end_epochs
          ∧ hp.lr_stable_end_epochs < hp.max_epochs) →
        ∃ msg, configure_optimizers hp = .error msg) := by
  refine ⟨?_, ?_, ?_⟩
  · intro h1 h2 h3
    simp [configure_optimizers, select_optimizer, h1, h2, h3]
  · intro h1 h2 h3 h4
    cases ho : select_optimizer hp with
    | error e => exact ⟨e, by simp [configure_optimizers, ho]⟩
    | ok o =>
      refine ⟨"Invalid lr_scheduler type!", ?_⟩
      simp [configure_optimizers, ho, select_lr_scheduler, h1, h2, h3, h4]
  · intro hs hinv
    have h1 : hp.lr_scheduler ≠ "StepLR" := by rw [hs]; decide
    have h2 : hp.lr_scheduler ≠ "MultiStepLR" := by rw [hs]; decide
    have h3 : hp.lr_scheduler ≠ "ReduceLROnPlateau" := by rw [hs]; decide
    cases ho : select_optimizer hp with
    | error e => exact ⟨e, by simp [configure_optimizers, ho]⟩
    | ok o =>
      refine ⟨"AssertionError", ?_⟩
      simp [configure_optimizers, ho, select_lr_scheduler, h1, h2, h3, hs, hinv]

/-- Concrete instances of Claim C4: an unknown optimizer name, an unknown
scheduler name, and a WSD invariant violation each abort the configuration. -/
theorem configure_optimizers_error_policy_witness :
    configure_optimizers sampleBadConf = .error "Invalid optimizer type!"
    ∧ (∃ msg, configure_optimizers { sampleAdamWConf with
        lr_scheduler := "CosineAnnealingLR" } = .error msg)
    ∧ (∃ msg, configure_optimizers sampleBadWsdConf = .error msg) :=
  ⟨(configure_optimizers_error_policy sampleBadConf).1
      (by decide) (by decide) (by decide),
   (configure_optimizers_error_policy { sampleAdamWConf with
        lr_scheduler := "CosineAnnealingLR" }).2.1
      (by decide) (by decide) (by decide) (by decide),
   (configure_optimizers_error_policy sampleBadWsdConf).2.2 rfl (by decide)⟩

/-- Counterexample to Claim C5 as stated: the claim's hypothesis
`lr_warmup_end_epochs < lr_stable_end_epochs < max_epochs` admits
`lr_warmup_end_epochs = 0`, where the epoch-0 multiplier is `1.0` (the stable
branch fires) and not `1 / lr_warmup_end_epochs`. -/
theorem wsd_lr_lambda_epoch0_cex :
    (0 : ℕ) < 1 ∧ (1 : ℕ) < 2
    ∧ wsd_lr_lambda 0 1 2 0 ≠ some (1 / ((0 : ℕ) : ℚ)) := by
  refine ⟨by decide, by decide, ?_⟩
  simp [wsd_lr_lambda]

/-- Claim C5 (amended): additionally requiring `1 ≤ lr_warmup_end_epochs`,
the WSD multiplier is `1 / lr_warmup_end_epochs` at epoch 0, `1.0` at the
first stable epoch `lr_warmup_end_epochs`, and
`1 / (max_epochs - lr_stable_end_epochs)` at epoch `lr_stable_end_epochs`. -/
theorem wsd_lr_lambda_boundaries (w s m : ℕ) (hw : 1 ≤ w) (hws : w < s) (hsm : s < m) :
    wsd_lr_lambda w s m 0 = some (1 / (w : ℚ))
    ∧ wsd_lr_lambda w s m w = some 1
    ∧ wsd_lr_lambda w s m s = some (1 / ((m : ℚ) - (s : ℚ))) := by
  refine ⟨?_, ?_, ?_⟩
  · rw [wsd_lr_lambda, if_pos (by omega)]
    norm_num
  · rw [wsd_lr_lambda, if_neg (by omega), if_pos (by omega)]
  · rw [wsd_lr_lambda, if_neg (by omega), if_neg (by omega),
      if_pos ⟨le_refl s, le_of_lt hsm⟩]
    have hnum : (s : ℚ) + 1 - (s : ℚ) = 1 := by ring
    rw [hnum]

/-- Concrete instance of Claim C5 (amended): warmup 2, stable end 4, max 8. -/
theorem wsd_lr_lambda_boundaries_witness :
    ((1 : ℕ) ≤ 2 ∧ (2 : ℕ) < 4 ∧ (4 : ℕ) < 8)
    ∧ wsd_lr_lambda 2 4 8 0 = some (1 / ((2 : ℕ) : ℚ))
    ∧ wsd_lr_lambda 2 4 8 2 = some 1
    ∧ wsd_lr_lambda 2 4 8 4 = some (1 / (((8 : ℕ) : ℚ) - ((4 : ℕ) : ℚ))) :=
  ⟨⟨by decide, by decide, by decide⟩,
    (wsd_lr_lambda_boundaries 2 4 8 (by decide) (by decide) (by decide)).1,
    (wsd_lr_lambda_boundaries 2 4 8 (by decide) (by decide) (by decide)).2.1,
    (wsd_lr_lambda_boundaries 2 4 8 (by decide) (by decide) (by decide)).2.2⟩

/-- Counterexample to Claim C6 as stated: with warmup 1, stable end 2 and max
5 epochs, the post-stable multiplier one epoch past `lr_stable_end_epochs`
(epoch 3) is `2/3`, not `1.0`. -/
theorem wsd_lr_lambda_stable_plus_one_cex :
    (1 : ℕ) < 2 ∧ (2 : ℕ) < 5
    ∧ wsd_lr_lambda 1 2 5 (2 + 1) ≠ some 1 := by
  refine ⟨by decide, by decide, ?_⟩
  simp [wsd_lr_lambda]
  norm_num

/-- Claim C6 (amended): in the post-stable phase
`lr_stable_end_epochs ≤ e ≤ max_epochs` the WSD multiplier is the linear
function `(e + 1 - lr_stable_end_epochs) / (max_epochs - lr_stable_end_epochs)`
of the epoch, strictly increasing over the phase; it reaches `1.0` at epoch
`max_epochs - 1` (one epoch before `max_epochs`, not one epoch past
`lr_stable_end_epochs`) and exceeds `1.0` at epoch `max_epochs`. -/
theorem wsd_lr_lambda_post_stable (w s m : ℕ) (hws : w < s) (hsm : s < m) :
    (∀ e, s ≤ e → e ≤ m →
      wsd_lr_lambda w s m e = some (((e : ℚ) + 1 - (s : ℚ)) / ((m : ℚ) - (s : ℚ))))
    ∧ (∀ e1 e2, s ≤ e1 → e1 < e2 → e2 ≤ m →
        ((e1 : ℚ) + 1 - (s : ℚ)) / ((m : ℚ) - (s : ℚ))
          < ((e2 : ℚ) + 1 - (s : ℚ)) / ((m : ℚ) - (s : ℚ)))
    ∧ wsd_lr_lambda w s m (m - 1) = some 1
    ∧ wsd_lr_lambda w s m m = some (((m : ℚ) + 1 - (s : ℚ)) / ((m : ℚ) - (s : ℚ)))
    ∧ 1 < ((m : ℚ) + 1 - (s : ℚ)) / ((m : ℚ) - (s : ℚ)) := by
  have hms : (0 : ℚ) < (m : ℚ) - (s : ℚ) := by
    have : (s : ℚ) < (m : ℚ) := by exact_mod_cast hsm
    linarith
  have hphase : ∀ e, s ≤ e → e ≤ m →
      wsd_lr_lambda w s m e = some (((e : ℚ) + 1 - (s : ℚ)) / ((m : ℚ) - (s : ℚ))) := by
    intro e hse hem
    rw [wsd_lr_lambda, if_neg (by omega), if_neg (by omega), if_pos ⟨hse, hem⟩]
  refine ⟨hphase, ?_, ?_, ?_, ?_⟩
  · intro e1 e2 he1 h12 he2
    have h12q : (e1 : ℚ) < (e2 : ℚ) := by exact_mod_cast h12
    exact (div_lt_div_iff_of_pos_right hms).mpr (by linarith)
  · rw [hphase (m - 1) (by omega) (by omega)]
    have hc : ((m - 1 : ℕ) : ℚ) = (m : ℚ) - 1 := by
      have h1m : 1 ≤ m := by omega
      push_cast [h1m]
      ring
    rw [hc]
    have hnum : (m : ℚ) - 1 + 1 - (s : ℚ) = (m : ℚ) - (s : ℚ) := by ring
    rw [hnum, div_self (ne_of_gt hms)]
  · exact hphase m (le_of_lt hsm) (le_refl m)
  · exact (one_lt_div hms).mpr (by linarith)

/-- Concrete instance of Claim C6 (amended): warmup 1, stable end 2, max 4
epochs; the multiplier is `1.0` at epoch `4 - 1 = 3` and `3/2 > 1` at
epoch 4. -/
theorem wsd_lr_lambda_post_stable_witness :
    ((1 : ℕ) < 2 ∧ (2 : ℕ) < 4)
    ∧ wsd_lr_lambda 1 2 4 (4 - 1) = some 1
    ∧ wsd_lr_lambda 1 2 4 4
        = some ((((4 : ℕ) : ℚ) + 1 - ((2 : ℕ) : ℚ)) / (((4 : ℕ) : ℚ) - ((2 : ℕ) : ℚ))) :=
  ⟨⟨by decide, by decide⟩,
    (wsd_lr_lambda_post_stable 1 2 4 (by decide) (by decide)).2.2.1,
    (wsd_lr_lambda_post_stable 1 2 4 (by decide) (by decide)).2.2.2.1⟩

/-! ## Model resolution (`LTSFRunner.load_model`) -/

/-- The Python exceptions relevant to `load_model`: the two errors that the
dynamic module loading can raise, and `ValueError` as raised elsewhere in the
file (`raise ValueError(...)` in `configure_optimizers`). -/
inductive PyError where
  | moduleNotFound (module_name : String)
  | attributeError (attr : String)
  | valueError (message : String)
deriving DecidableEq

/-- `LTSFRunner.load_model` (source lines 227-230):
`getattr(importlib.import_module('.' + model_name, package='core.model'),
model_name)`. The import environment is a partial map from absolute module
name to the module's exported names; a missing module surfaces the import
machinery's `ModuleNotFoundError`, a missing attribute its `AttributeError`.
The function body holds no `try`/`except` and no `raise` of its own. -/
def load_model {α : Type} (loaded_modules : String → Option (String → Option α))
    (model_name : String) : Except PyError α :=
  match loaded_modules ("core.model." ++ model_name) with
  | none => .error (.moduleNotFound ("core.model." ++ model_name))
  | some module =>
    match module model_name with
    | none => .error (.attributeError model_name)
    | some M => .ok M

/-- Counterexample to Claim C7 as stated: in an import environment with no
models at all, resolving `"DenseRMoK"` fails with the import machinery's
module-not-found error, not with a configuration error carrying the message
`"Invalid model type"` (no such message exists in the source). -/
theorem load_model_invalid_model_type_cex :
    load_model ((fun _ => none) : String → Option (String → Option Unit)) "DenseRMoK"
        = .error (.moduleNotFound ("core.model." ++ "DenseRMoK"))
    ∧ load_model ((fun _ => none) : String → Option (String → Option Unit)) "DenseRMoK"
        ≠ .error (.valueError "Invalid model type") := by
  refine ⟨rfl, ?_⟩
  simp [load_model]

/-- Claim C7 (amended): a `model_name` that does not resolve makes `load_model`
fail with the propagated import error — `ModuleNotFoundError` when the module
is missing, `AttributeError` when the module lacks the class — and no failure
of `load_model` ever carries a `ValueError` (in particular none with message
`"Invalid model type"`). -/
theorem load_model_error (α : Type) (loaded_modules : String → Option (String → Option α))
    (model_name : String) :
    (loaded_modules ("core.model." ++ model_name) = none →
      load_model loaded_modules model_name
        = .error (.moduleNotFound ("core.model." ++ model_name)))
    ∧ (∀ module, loaded_modules ("core.model." ++ model_name) = some module →
        module model_name = none →
        load_model loaded_modules model_name = .error (.attributeError model_name))
    ∧ (∀ e, load_model loaded_modules model_name = .error e →
        ∀ msg, e ≠ .valueError msg) := by
  refine ⟨?_, ?_, ?_⟩
  · intro h
    simp [load_model, h]
  · intro module hm ha
    simp [load_model, hm, ha]
  · intro e he msg
    unfold load_model at he
    cases hm : loaded_modules ("core.model." ++ model_name) with
    | none =>
      rw [hm] at he
      cases he
      simp
    | some module =>
      rw [hm] at he
      simp only at he
      cases ha : module model_name with
      | none =>
        rw [ha] at he
        cases he
        simp
      | some M =>
        rw [ha] at he
        cases he

/-- Concrete instance of Claim C7 (amended): an empty environment and an
environment whose `core.model.DenseRMoK` module lacks the class. -/
theorem load_model_error_witness :
    load_model ((fun _ => none) : String → Option (String → Option Unit)) "Foo"
        = .error (.moduleNotFound ("core.model." ++ "Foo"))
    ∧ load_model
        ((fun n => if n = "core.model." ++ "DenseRMoK" then some (fun _ => none) else none)
          : String → Option (String → Option Unit)) "DenseRMoK"
        = .error (.attributeError "DenseRMoK") :=
  ⟨(load_model_error Unit (fun _ => none) "Foo").1 rfl,
   (load_model_error Unit
      (fun n => if n = "core.model." ++ "DenseRMoK" then some (fun _ => none) else none)
      "DenseRMoK").2.1 (fun _ => none) (by simp) rfl⟩

/-! ## Batch config generation (`train.py`: `generate_config_files`) -/

/-- The filesystem as seen by `generate_config_files`: a partial map from
absolute file path to file content. -/
def FileSystem : Type := String → Option String

/-- Writing a file (`open(path, 'w')` followed by `write`): the file at that
path is created or overwritten, every other path is untouched. -/
def fsWrite (fs : FileSystem) (path content : String) : FileSystem :=
  fun p => if p = path then some content else fs p

/-- The fixed output directory (source `train.py` line 122). -/
def output_dir : String := "/config/reproduce_conf/RMoK"

/-- The fixed ordered 20-ticker-symbol list (source lines 139-144). -/
def ticker_symbols : List String :=
  ["AAPL", "MSFT", "ORCL", "AMD", "CSCO", "ADBE",
   "IBM", "TXN", "AMAT", "MU", "ADI", "INTC",
   "LRCX", "KLAC", "MSI", "GLW", "HPQ", "TYL",
   "PTC", "WDC"]

/-- `template_content.format(dataset=symbol)` (source lines 125-136): the
config-file text with both `\x7bdataset\x7d` placeholders interpolated. -/
def template_content (dataset : String) : String :=
  "exp_conf = dict(\n    model_name=\"DenseRMoK\",\n    dataset_name=\x27"
    ++ dataset
    ++ "\x27,     # Set to "
    ++ dataset
    ++ " to point to your new dataset\n\n    hist_len=60,\n    pred_len=1,\n\n"
    ++ "    revin_affine=False,       # Retain other configurations as in ETTh1\n\n"
    ++ "    lr=0.001,                 # Learning rate\n)\n"

/-- `os.path.join(output_dir, f"{symbol}_30for1.py")` (source line 152). -/
def config_path (symbol : String) : String :=
  output_dir ++ "/" ++ symbol ++ "_30for1.py"

/-- `generate_config_files` (source lines 146-157): for each ticker symbol in
order, write the interpolated template to the symbol's config path.
(`os.makedirs(..., exist_ok=True)` only ensures the directory exists and is
not part of the path-to-content map.) -/
def generate_config_files (fs : FileSystem) : FileSystem :=
  ticker_symbols.foldl
    (fun acc symbol => fsWrite acc (config_path symbol) (template_content symbol)) fs

/-- Reading the filesystem left by a sequence of config writes: the last
symbol whose path matches wins; unmatched paths read from the prior
filesystem. -/
theorem foldl_fsWrite_lookup (l : List String) (fs : FileSystem) (p : String) :
    (l.foldl (fun acc symbol => fsWrite acc (config_path symbol) (template_content symbol)) fs) p
      = match l.reverse.find? (fun s => config_path s == p) with
        | some s => some (template_content s)
        | none => fs p := by
  induction l generalizing fs with
  | nil => rfl
  | cons a t ih =>
    rw [List.foldl_cons, ih]
    rw [List.reverse_cons, List.find?_append]
    cases h : t.reverse.find? (fun s => config_path s == p) with
    | some s => simp [h]
    | none =>
      simp only [h, Option.none_or]
      by_cases hp : config_path a = p
      · simp [List.find?, hp, fsWrite]
      · have hb : (config_path a == p) = false := by simp [hp]
        simp [List.find?, fsWrite, hb, Ne.symm hp]

/-- `generate_config_files` in terms of a single lookup. -/
theorem generate_config_files_lookup (fs : FileSystem) (p : String) :
    generate_config_files fs p
      = match ticker_symbols.reverse.find? (fun s => config_path s == p) with
        | some s => some (template_content s)
        | none => fs p :=
  foldl_fsWrite_lookup ticker_symbols fs p

/-- Claim C8: running `generate_config_files` over the fixed 20-symbol list
produces exactly the 20 pairwise-distinct files
`/config/reproduce_conf/RMoK/{SYMBOL}_30for1.py` (the literal `_30for1`
name), each holding the template record interpolated with that symbol
(`model_name="DenseRMoK"`, `dataset_name='{SYMBOL}'`, `hist_len=60`,
`pred_len=1`, `revin_affine=False`, `lr=0.001`); every other path is
untouched, and re-running overwrites the same files rather than duplicating
(the generator is idempotent on the filesystem). -/
theorem generate_config_files_spec :
    ticker_symbols.length = 20
    ∧ (ticker_symbols.map config_path).Nodup
    ∧ (∀ symbol ∈ ticker_symbols,
        config_path symbol = output_dir ++ "/" ++ symbol ++ "_30for1.py")
    ∧ (∀ fs : FileSystem, ∀ symbol ∈ ticker_symbols,
        generate_config_files fs (config_path symbol) = some (template_content symbol))
    ∧ (∀ fs : FileSystem, ∀ p, p ∉ ticker_symbols.map config_path →
        generate_config_files fs p = fs p)
    ∧ (∀ fs : FileSystem, generate_config_files (generate_config_files fs)
        = generate_config_files fs) := by
  have hfind : ∀ symbol ∈ ticker_symbols,
      ticker_symbols.reverse.find? (fun s => config_path s == config_path symbol)
        = some symbol := by decide
  have hwrite : ∀ fs : FileSystem, ∀ symbol ∈ ticker_symbols,
      generate_config_files fs (config_path symbol) = some (template_content symbol) := by
    intro fs symbol hs
    rw [generate_config_files_lookup, hfind symbol hs]
  have huntouched : ∀ fs : FileSystem, ∀ p, p ∉ ticker_symbols.map config_path →
      generate_config_files fs p = fs p := by
    intro fs p hp
    rw [generate_config_files_lookup]
    cases h : ticker_symbols.reverse.find? (fun s => config_path s == p) with
    | none => rfl
    | some s =>
      exfalso
      apply hp
      have hmem : s ∈ ticker_symbols.reverse := List.mem_of_find?_eq_some h
      have hps : config_path s = p := by
        have := List.find?_some h
        simpa using this
      exact hps ▸ List.mem_map_of_mem config_path (List.mem_reverse.mp hmem)
  refine ⟨rfl, by decide, fun symbol _ => rfl, hwrite, huntouched, ?_⟩
  intro fs
  funext p
  rw [generate_config_files_lookup (generate_config_files fs) p,
    generate_config_files_lookup fs p]
  cases h : ticker_symbols.reverse.find? (fun s => config_path s == p) with
  | some s => rfl
  | none => rfl

/-- Concrete instance of Claim C8: on an empty filesystem the generator
writes the AAPL file and leaves an unrelated path empty. -/
theorem generate_config_files_spec_witness :
    ("AAPL" ∈ ticker_symbols
      ∧ generate_config_files (fun _ => none) (config_path "AAPL")
          = some (template_content "AAPL"))
    ∧ ("/etc/hosts" ∉ ticker_symbols.map config_path
      ∧ generate_config_files (fun _ => none) "/etc/hosts" = none) :=
  ⟨⟨by decide,
     generate_config_files_spec.2.2.2.1 (fun _ => none) "AAPL" (by decide)⟩,
   ⟨by decide,
     generate_config_files_spec.2.2.2.2.1 (fun _ => none) "/etc/hosts" (by decide)⟩⟩

/-! ## Test-time accumulators (`LTSFRunner.test_step`, `on_test_epoch_end`) -/

/-- The scalars extracted by one `test_step` call (source lines 151-154):
`prediction.item()`, `label.item()`, `true_price_today.item()`,
`confidence.item()` and `custom_loss.item()`. -/
structure StepData where
  predicted_price_tomorrow : ℚ
  true_price_tomorrow : ℚ
  true_price_today : ℚ
  confidence_score : ℚ
  custom_loss : ℚ
deriving DecidableEq

/-- The five parallel accumulator lists that `test_step` keeps on the runner
(source lines 157-169). They are created together on the first test step, so
the runner state either lacks all five (`none`) or holds all five (`some`). -/
structure TestAccumulators where
  predictions_tomorrow : List ℚ
  true_prices_tomorrow : List ℚ
  true_prices_today : List ℚ
  confidences : List ℚ
  custom_losses : List ℚ
deriving DecidableEq

/-- The accumulator effect of `LTSFRunner.test_step` (source lines 156-169):
if the attributes are absent, create all five as empty lists, then append the
current example's scalar to each of the five. -/
def test_step (acc : Option TestAccumulators) (d : StepData) : Option TestAccumulators :=
  let a : TestAccumulators :=
    match acc with
    | none => ⟨[], [], [], [], []⟩
    | some a => a
  some
    { predictions_tomorrow := a.predictions_tomorrow ++ [d.predicted_price_tomorrow]
      true_prices_tomorrow := a.true_prices_tomorrow ++ [d.true_price_tomorrow]
      true_prices_today := a.true_prices_today ++ [d.true_price_today]
      confidences := a.confidences ++ [d.confidence_score]
      custom_losses := a.custom_losses ++ [d.custom_loss] }

/-- A sequence of `test_step` calls on a runner state. -/
def run_test_steps (acc : Option TestAccumulators) (ds : List StepData) :
    Option TestAccumulators :=
  ds.foldl test_step acc

/-- `LTSFRunner.on_test_epoch_end` (source lines 95-110): if the accumulator
attributes exist, compute the trading evaluation from the three price lists;
the accumulator state itself is returned unchanged (the method never assigns
to, or deletes, the accumulator attributes). -/
def on_test_epoch_end (acc : Option TestAccumulators) :
    Option TestAccumulators × Option TradingEval :=
  match acc with
  | none => (none, none)
  | some a =>
    (some a,
      some (evaluate_trading_strategy a.predictions_tomorrow a.true_prices_tomorrow
        a.true_prices_today))

/-- All five accumulator lists have length `n`. -/
def balanced (a : TestAccumulators) (n : ℕ) : Prop :=
  a.predictions_tomorrow.length = n
  ∧ a.true_prices_tomorrow.length = n
  ∧ a.true_prices_today.length = n
  ∧ a.confidences.length = n
  ∧ a.custom_losses.length = n

/-- One `test_step` on a balanced state appends one element to each list. -/
theorem test_step_balanced (a : TestAccumulators) (n : ℕ) (d : StepData)
    (h : balanced a n) :
    ∃ b, test_step (some a) d = some b ∧ balanced b (n + 1) := by
  obtain ⟨h1, h2, h3, h4, h5⟩ := h
  exact ⟨_, rfl, by simp [balanced, h1, h2, h3, h4, h5]⟩

/-- Folding `test_step` from a balanced state keeps the lists balanced and
grows each by the number of steps. -/
theorem run_test_steps_balanced (ds : List StepData) (a : TestAccumulators) (n : ℕ)
    (h : balanced a n) :
    ∃ b, run_test_steps (some a) ds = some b ∧ balanced b (n + ds.length) := by
  induction ds generalizing a n with
  | nil => exact ⟨a, rfl, by simpa using h⟩
  | cons d t ih =>
    obtain ⟨b, hb, hbal⟩ := test_step_balanced a n d h
    obtain ⟨c, hc, hcal⟩ := ih b (n + 1) hbal
    refine ⟨c, ?_, ?_⟩
    · rw [run_test_steps, List.foldl_cons, hb]
      exact hc
    · have : n + 1 + t.length = n + (d :: t).length := by simp; omega
      rwa [this] at hcal

/-- Claim C10: `test_step` always leaves the accumulator state present
(creating all five lists together on the first step) and appends exactly one
element to each of the five lists; after any sequence of test steps from the
fresh state the five lists exist iff at least one step has run, and all have
length equal to the number of steps; `on_test_epoch_end` leaves the
accumulator state unchanged (it only reads it). -/
theorem test_step_accumulators_invariant :
    (∀ (acc : Option TestAccumulators) (d : StepData), ∃ b, test_step acc d = some b)
    ∧ (∀ (a : TestAccumulators) (n : ℕ) (d : StepData), balanced a n →
        ∃ b, test_step (some a) d = some b ∧ balanced b (n + 1))
    ∧ run_test_steps none [] = none
    ∧ (∀ ds : List StepData, ds ≠ [] →
        ∃ b, run_test_steps none ds = some b ∧ balanced b ds.length)
    ∧ (∀ ds : List StepData, ∀ b, run_test_steps none ds = some b →
        balanced b ds.length)
    ∧ (∀ acc : Option TestAccumulators, (on_test_epoch_end acc).1 = acc) := by
  have hrun : ∀ ds : List StepData, ds ≠ [] →
      ∃ b, run_test_steps none ds = some b ∧ balanced b ds.length := by
    intro ds hne
    cases ds with
    | nil => exact absurd rfl hne
    | cons d t =>
      obtain ⟨b, hb, hbal⟩ := test_step_balanced ⟨[], [], [], [], []⟩ 0 d
        (by simp [balanced])
      have hstep : test_step none d = some b := by
        rw [← hb]
        rfl
      obtain ⟨c, hc, hcal⟩ := run_test_steps_balanced t b 1 hbal
      refine ⟨c, ?_, ?_⟩
      · rw [run_test_steps, List.foldl_cons, hstep]
        exact hc
      · have : 1 + t.length = (d :: t).length := by simp; omega
        rwa [this] at hcal
  refine ⟨?_, test_step_balanced, rfl, hrun, ?_, ?_⟩
  · intro acc d
    exact ⟨_, rfl⟩
  · intro ds b hb
    cases ds with
    | nil => cases hb
    | cons d t =>
      obtain ⟨c, hc, hcal⟩ := hrun (d :: t) (by simp)
      rw [hb] at hc
      cases hc
      exact hcal
  · intro acc
    cases acc with
    | none => rfl
    | some a => rfl

/-- Concrete instance of Claim C10: two test steps from the fresh state leave
five two-element lists. -/
theorem test_step_accumulators_invariant_witness :
    run_test_steps none [⟨1, 2, 3, 4, 5⟩, ⟨6, 7, 8, 9, 10⟩]
        = some ⟨[1, 6], [2, 7], [3, 8], [4, 9], [5, 10]⟩
    ∧ balanced ⟨[1, 6], [2, 7], [3, 8], [4, 9], [5, 10]⟩ 2 :=
  ⟨rfl,
    test_step_accumulators_invariant.2.2.2.2.1 [⟨1, 2, 3, 4, 5⟩, ⟨6, 7, 8, 9, 10⟩]
      ⟨[1, 6], [2, 7], [3, 8], [4, 9], [5, 10]⟩ rfl⟩
